import Mathlib

/-!
Shallow embedding of the credit-repair analysis core
(`backend/analyzers/error_detector.py`, `backend/dispute_engine/strategy_builder.py`,
`backend/parsers/pdf_parser.py`, `backend/parsers/ocr_engine.py`,
`backend/parsers/ocr_integration.py`).

Python dictionaries with a fixed set of consulted keys are embedded as Lean
structures whose fields are `Option`-valued when the source reads them through
`dict.get` with a default (a missing key and an explicit `None` value are both
embedded as `none`; `d.get(k, default)` becomes `Option.getD`).  Numbers the
source compares and sums are embedded as `Int`.  The wall clock
(`datetime.utcnow()`) and the `datetime.strptime` calls of the standard
library are external to the repository and are passed in explicitly as an
environment: time points live on an abstract `Int` day line and a
`timedelta(days = n)` is the subtraction of `n`.
-/

namespace CreditRepair

/-- ASCII whitespace recognised by Python's `str.strip()` (the embedding keeps
the ASCII fragment of Python's Unicode whitespace class). -/
def pySpace (c : Char) : Bool :=
  c = ' ' || c = '\t' || c = '\n' || c = '\x0d' || c = '\x0b' || c = '\x0c'

/-- Python `str.strip()`: drop leading and trailing whitespace. -/
def pyStrip (s : String) : String :=
  String.mk (((s.toList.dropWhile pySpace).reverse.dropWhile pySpace).reverse)

/-- Python `str.lower()` (ASCII fragment). -/
def pyLower (s : String) : String :=
  String.mk (s.toList.map Char.toLower)

/-- Does the first character list start the second? -/
def listStarts : List Char → List Char → Bool
  | [], _ => true
  | _ :: _, [] => false
  | a :: as, b :: bs => a == b && listStarts as bs

/-- Is the first character list a contiguous sublist of the second? -/
def listInside (needle : List Char) : List Char → Bool
  | [] => needle.isEmpty
  | c :: rest => listStarts needle (c :: rest) || listInside needle rest

/-- Python `needle in haystack` on strings: substring containment. -/
def pyContains (haystack needle : String) : Bool :=
  listInside needle.toList haystack.toList

/-- Python `str(list-of-ints)`, e.g. `[500, 750]`. -/
def pyIntListRepr (l : List Int) : String :=
  "[" ++ String.intercalate ", " (l.map toString) ++ "]"

/-- Python `str(list-of-strings)`, e.g. `['open', 'closed']`. -/
def pyStrListRepr (l : List String) : String :=
  "[" ++ String.intercalate ", " (l.map (fun s => "\x27" ++ s ++ "\x27")) ++ "]"

/-- One account record of a `StructuredReport`, with exactly the keys the
analysis core reads (`error_detector.py`).  `none` embeds an absent key. -/
structure Account where
  creditor_name : Option String := none
  account_number : Option String := none
  account_type : Option String := none
  account_status : Option String := none
  current_balance : Option Int := none
  credit_limit : Option Int := none
  late_30_count : Option Int := none
  late_60_count : Option Int := none
  late_90_count : Option Int := none
  is_negative : Bool := false
  is_collection : Bool := false
  is_charge_off : Bool := false
  is_authorized_user : Bool := false
  date_opened : Option String := none
  deriving Repr, DecidableEq

/-- One inquiry record (`parsed_data["inquiries"]`). -/
structure Inquiry where
  creditor_name : Option String := none
  inquiry_date : Option String := none
  itype : Option String := none
  deriving Repr, DecidableEq

/-- One public record (`parsed_data["public_records"]`). -/
structure PublicRecord where
  rtype : Option String := none
  details : Option String := none
  status : Option String := none
  deriving Repr, DecidableEq

/-- The `report_data` argument of `ErrorDetector.analyze_report`:
`accounts` plus the nested `parsed_data` dict. -/
structure ParsedData where
  inquiries : List Inquiry := []
  public_records : List PublicRecord := []
  deriving Repr, DecidableEq

structure ReportData where
  accounts : List Account := []
  parsed_data : ParsedData := {}
  deriving Repr, DecidableEq

/-- The account sub-dict stored inside an error by
`ErrorDetector._create_error`. -/
structure AccountRef where
  creditor_name : Option String
  account_number : Option String
  account_type : Option String
  deriving Repr, DecidableEq

/-- One error dict as produced by the detector.  The dicts built by
`_create_error` carry `name`, `account`, `dispute_strategy` and `priority`;
the inline inquiry / public-record error dicts do not, hence those fields are
`Option`-valued (`none` = key absent). -/
structure ErrorDict where
  etype : String
  name : Option String := none
  description : String
  account : Option AccountRef := none
  severity : String
  fcra_section : String
  estimated_impact : Int
  dispute_strategy : Option String := none
  priority : Option Int := none
  inquiry : Option Inquiry := none
  record : Option PublicRecord := none
  deriving Repr, DecidableEq

/-- One cross-bureau discrepancy dict
(`ErrorDetector._check_cross_bureau_discrepancies`). -/
structure Discrepancy where
  dtype : String
  account_number : String
  description : String
  severity : String
  fcra_section : String
  deriving Repr, DecidableEq

/-- Metadata row of the fixed `ErrorDetector.ERROR_TYPES` table. -/
structure ErrorTypeInfo where
  name : String
  severity : String
  fcra_section : String
  description : String
  estimated_impact : Int
  deriving Repr, DecidableEq

/-- Embeds `ErrorDetector.ERROR_TYPES`, keyed lookup (only the keys the analysis can
reach are consulted, but the whole table is embedded). -/
def ERROR_TYPES : String → Option ErrorTypeInfo
  | "outdated_negative" => some ⟨"Outdated Negative (7+ Years)", "high", "605(a)(1)", "Negative items older than 7 years", 15⟩
  | "outdated_inquiry" => some ⟨"Outdated Hard Inquiry (2+ Years)", "medium", "605(a)(3)", "Hard inquiries older than 2 years", 5⟩
  | "outdated_bankruptcy" => some ⟨"Outdated Bankruptcy (10+ Years)", "high", "605(a)(1)", "Bankruptcy older than 10 years", 50⟩
  | "balance_exceeds_limit" => some ⟨"Balance Exceeds Credit Limit", "high", "623(a)(1)", "Current balance exceeds stated credit limit", 10⟩
  | "missing_credit_limit" => some ⟨"Missing Credit Limit", "medium", "609(a)(1)", "Account lacks credit limit information", 5⟩
  | "duplicate_account" => some ⟨"Duplicate Account", "high", "623(a)(1)", "Same account reported multiple times", 15⟩
  | "impossible_late_pattern" => some ⟨"Impossible Late Payment Pattern", "high", "623(a)(1)", "90+ day late without 30/60 day lates", 20⟩
  | "contradictory_status" => some ⟨"Contradictory Account Status", "high", "623(a)(1)", "Account status contradicts other data", 15⟩
  | "paid_collection" => some ⟨"Paid Collection Still Reporting", "medium", "623(a)(1)", "Collection account still shows balance after payment", 10⟩
  | "medical_collection_ncap" => some ⟨"Medical Collection (NCAP Eligible)", "medium", "NCAP 2022", "Paid medical collection eligible for removal", 15⟩
  | "tax_lien_ncap" => some ⟨"Tax Lien (NCAP Eligible - 2018+)", "high", "NCAP 2018", "Tax lien eligible for removal under NCAP", 30⟩
  | "charge_off_balance_growth" => some ⟨"Charge-Off Balance Increasing", "high", "623(a)(1)", "Balance increasing after charge-off", 15⟩
  | "closed_with_balance" => some ⟨"Closed Account with Balance", "high", "623(a)(1)", "Closed account showing non-zero balance", 15⟩
  | "future_date" => some ⟨"Future Date Listed", "high", "623(a)(1)", "Date in the future", 10⟩
  | "missing_date" => some ⟨"Missing Critical Date", "medium", "609(a)(1)", "Required date information missing", 5⟩
  | "re_aging" => some ⟨"Account Re-Aging", "high", "623(a)(5)", "Date of first delinquency changed illegally", 25⟩
  | "authorized_user_negative" => some ⟨"Authorized User Account Negative", "medium", "605(a)(1)", "Negative authorized user account", 10⟩
  | "settled_with_balance" => some ⟨"Settled Account with Balance", "high", "623(a)(1)", "Settled account showing remaining balance", 15⟩
  | "unauthorized_inquiry" => some ⟨"Unauthorized Hard Inquiry", "medium", "604(a)(3)", "Hard inquiry without permissible purpose", 5⟩
  | "cross_bureau_discrepancy" => some ⟨"Cross-Bureau Discrepancy", "high", "623(a)(1)", "Same account shows different data across bureaus", 15⟩
  | "not_my_account" => some ⟨"Account Not Mine", "high", "605B", "Account does not belong to consumer", 20⟩
  | "identity_theft" => some ⟨"Identity Theft / Fraud", "critical", "605B", "Fraudulent account opened without authorization", 50⟩
  | "mixed_file" => some ⟨"Mixed Credit File", "high", "607(b)", "Another person's data on your report", 30⟩
  | _ => none

/-- Embeds `ErrorDetector._get_strategy_for_error`. -/
def get_strategy_for_error (error_type : String) : String :=
  let strategies : String → Option String := fun k =>
    match k with
    | "outdated_negative" => some "fcra_violation"
    | "outdated_inquiry" => some "fcra_violation"
    | "balance_exceeds_limit" => some "factual_dispute"
    | "duplicate_account" => some "not_my_account"
    | "impossible_late_pattern" => some "fcra_violation"
    | "paid_collection" => some "collection_validation"
    | "medical_collection_ncap" => some "collection_validation"
    | "closed_with_balance" => some "factual_dispute"
    | "unauthorized_inquiry" => some "fcra_violation"
    | "identity_theft" => some "section_605b"
    | _ => none
  (strategies error_type).getD "factual_dispute"

/-- Embeds `ErrorDetector._severity_to_priority`. -/
def severity_to_priority (severity : String) : Int :=
  match severity with
  | "critical" => 1
  | "high" => 2
  | "medium" => 3
  | "low" => 4
  | _ => 3

/-- Embeds `ErrorDetector._create_error`. -/
def create_error (error_type : String) (account : Account) (description : String) : ErrorDict :=
  let info := ERROR_TYPES error_type
  { etype := error_type
    name := some ((info.map (·.name)).getD error_type)
    description := description
    account := some ⟨account.creditor_name, account.account_number, account.account_type⟩
    severity := (info.map (·.severity)).getD "medium"
    fcra_section := (info.map (·.fcra_section)).getD "623(a)(1)"
    estimated_impact := (info.map (·.estimated_impact)).getD 10
    dispute_strategy := some (get_strategy_for_error error_type)
    priority := some (severity_to_priority ((info.map (·.severity)).getD "medium")) }

/-- External inputs of the detector: `datetime.utcnow()` as a point on an
`Int` day line, and the two `datetime.strptime` format instances the source
uses (`"%m/%Y"` for account open dates, `"%m/%d/%Y"` for inquiry dates), each
returning `none` where `strptime` would raise (the source catches and skips). -/
structure DetectorEnv where
  now : Int
  strptime_mY : String → Option Int
  strptime_mdY : String → Option Int

/-- Embeds `ErrorDetector._analyze_account`: the per-account rules, appended in
source order. -/
def analyze_account (account : Account) : List ErrorDict :=
  let balance := account.current_balance.getD 0
  let limit := account.credit_limit.getD 0
  let late_30 := account.late_30_count.getD 0
  let late_60 := account.late_60_count.getD 0
  let late_90 := account.late_90_count.getD 0
  let status := pyLower (account.account_status.getD "")
  let creditor := pyLower (account.creditor_name.getD "")
  (if limit > 0 && balance > limit then
    [create_error "balance_exceeds_limit" account
      ("Balance ($" ++ toString balance ++ ") exceeds limit ($" ++ toString limit ++ ")")]
   else []) ++
  (if pyLower (account.account_status.getD "") == "open" && limit == 0
      && (pyLower (account.account_type.getD "") == "credit card"
          || pyLower (account.account_type.getD "") == "revolving") then
    [create_error "missing_credit_limit" account "Credit limit not reported"]
   else []) ++
  (if late_90 > 0 && (late_30 == 0 || late_60 == 0) then
    [create_error "impossible_late_pattern" account
      "90+ day late without corresponding 30/60 day lates"]
   else []) ++
  (if (pyContains status "closed" || pyContains status "paid")
      && balance > 0 && !account.is_collection then
    [create_error "closed_with_balance" account
      ("Closed/paid account shows $" ++ toString balance ++ " balance")]
   else []) ++
  (if account.is_collection
      && (pyContains creditor "medical" || pyContains creditor "hospital"
          || pyContains creditor "clinic" || pyContains creditor "health") then
    [create_error "medical_collection_ncap" account
      "Medical collection - may be eligible for NCAP removal"]
   else []) ++
  (if account.is_authorized_user && account.is_negative then
    [create_error "authorized_user_negative" account
      "Authorized user account showing negative history"]
   else [])

/-- Grouping step of `_check_cross_bureau_discrepancies`: a Python dict of
lists keyed by account number, in key-insertion order, appending each account
to its group in list order (accounts with an empty / absent number skipped). -/
def addToGroups (k : String) (a : Account) :
    List (String × List Account) → List (String × List Account)
  | [] => [(k, [a])]
  | (k', l) :: rest =>
      if k = k' then (k', l ++ [a]) :: rest else (k', l) :: addToGroups k a rest

def groupByAcct (accounts : List Account) : List (String × List Account) :=
  accounts.foldl
    (fun groups account =>
      let acct_num := account.account_number.getD ""
      if acct_num = "" then groups else addToGroups acct_num account groups)
    []

/-- Discrepancies emitted for one group (`len(set(values)) > 1` is "the
deduplicated value list has more than one element"). -/
def groupDiscrepancies (acct_num : String) (acct_list : List Account) : List Discrepancy :=
  if acct_list.length > 1 then
    (if (acct_list.map (fun a => a.current_balance.getD 0)).dedup.length > 1 then
      [{ dtype := "cross_bureau_discrepancy", account_number := acct_num
         description := "Balance varies across bureaus: "
           ++ pyIntListRepr (acct_list.map (fun a => a.current_balance.getD 0))
         severity := "high", fcra_section := "623(a)(1)" }]
     else []) ++
    (if (acct_list.map (fun a => a.account_status.getD "")).dedup.length > 1 then
      [{ dtype := "cross_bureau_discrepancy", account_number := acct_num
         description := "Status varies across bureaus: "
           ++ pyStrListRepr (acct_list.map (fun a => a.account_status.getD ""))
         severity := "high", fcra_section := "623(a)(1)" }]
     else [])
  else []

/-- Embeds `ErrorDetector._check_cross_bureau_discrepancies`. -/
def check_cross_bureau_discrepancies (accounts : List Account) : List Discrepancy :=
  (groupByAcct accounts).flatMap (fun g => groupDiscrepancies g.1 g.2)

/-- Embeds `ErrorDetector._check_outdated_items` (the 10-year bound is computed in
the source but unused; `parsed_data` is likewise an unused argument). -/
def check_outdated_items (env : DetectorEnv) (accounts : List Account) : List ErrorDict :=
  let seven_years_ago := env.now - 7 * 365
  accounts.flatMap (fun account =>
    let date_opened := account.date_opened.getD ""
    if account.is_negative && date_opened != "" then
      match env.strptime_mY date_opened with
      | some opened_date =>
          if opened_date < seven_years_ago then
            [create_error "outdated_negative" account
              ("Negative item older than 7 years (opened " ++ date_opened ++ ")")]
          else []
      | none => []
    else [])

/-- Embeds `ErrorDetector._check_inquiries`. -/
def check_inquiries (env : DetectorEnv) (inquiries : List Inquiry) : List ErrorDict :=
  let two_years_ago := env.now - 2 * 365
  inquiries.flatMap (fun inquiry =>
    if inquiry.itype == some "hard" then
      let inquiry_date := inquiry.inquiry_date.getD ""
      if inquiry_date != "" then
        match env.strptime_mdY inquiry_date with
        | some date =>
            if date < two_years_ago then
              [{ etype := "outdated_inquiry"
                 description := "Hard inquiry from " ++ inquiry_date ++ " exceeds 2-year limit"
                 severity := "medium", fcra_section := "605(a)(3)"
                 estimated_impact := 5, inquiry := some inquiry }]
            else []
        | none => []
      else []
    else [])

/-- Embeds `ErrorDetector._check_public_records` (the bankruptcy branch is an
explicit no-op in the source). -/
def check_public_records (records : List PublicRecord) : List ErrorDict :=
  records.flatMap (fun record =>
    if record.rtype == some "tax_lien" then
      [{ etype := "tax_lien_ncap"
         description := "Tax lien may be eligible for NCAP removal"
         severity := "high", fcra_section := "NCAP 2018"
         estimated_impact := 30, record := some record }]
    else if record.rtype == some "bankruptcy" then []
    else [])

/-- Embeds `ErrorDetector._summarize_errors`: a counter dict seeded with the four
severities, gaining a key on an unknown severity (Python
`summary[sev] = summary.get(sev, 0) + 1`). -/
def incKey (key : String) : List (String × Nat) → List (String × Nat)
  | [] => [(key, 1)]
  | (k, n) :: rest => if k = key then (k, n + 1) :: rest else (k, n) :: incKey key rest

def summarize_errors (errors : List ErrorDict) : List (String × Nat) :=
  errors.foldl (fun summary e => incKey e.severity summary)
    [("critical", 0), ("high", 0), ("medium", 0), ("low", 0)]

/-- The sort key of `_rank_by_priority`: Python tuple
`(error.get("priority", 5), -error.get("estimated_impact", 0))` under
lexicographic comparison. -/
def rankKeyLt (a b : ErrorDict) : Bool :=
  let ka := (a.priority.getD 5, -a.estimated_impact)
  let kb := (b.priority.getD 5, -b.estimated_impact)
  ka.1 < kb.1 || (ka.1 == kb.1 && ka.2 < kb.2)

/-- Stable sort mirroring Python `sorted`: each element is inserted after the
already-placed elements whose key is not greater. -/
def insertRanked (a : ErrorDict) : List ErrorDict → List ErrorDict
  | [] => [a]
  | b :: bs => if rankKeyLt a b then a :: b :: bs else b :: insertRanked a bs

def rank_by_priority (errors : List ErrorDict) : List ErrorDict :=
  errors.foldl (fun acc a => insertRanked a acc) []

/-- One entry of `_generate_dispute_recommendations`. -/
structure Recommendation where
  rank : Nat
  error_type : String
  creditor : Option String
  strategy : Option String
  priority : Option Int
  estimated_impact : Int
  legal_basis : String
  deriving Repr, DecidableEq

def mkRecommendation (i : Nat) (error : ErrorDict) : Recommendation :=
  { rank := i + 1
    error_type := error.etype
    creditor := error.account.bind (·.creditor_name)
    strategy := error.dispute_strategy
    priority := error.priority
    estimated_impact := error.estimated_impact
    legal_basis := "FCRA § " ++ error.fcra_section }

/-- Embeds `ErrorDetector._generate_dispute_recommendations`: top 15 of the ranking,
in order. -/
def generate_dispute_recommendations (errors : List ErrorDict) : List Recommendation :=
  (((rank_by_priority errors).take 15).enum).map (fun p => mkRecommendation p.1 p.2)

/-- The result dict of `ErrorDetector.analyze_report`. -/
structure AnalysisResult where
  total_errors : Nat
  total_discrepancies : Nat
  total_estimated_impact : Int
  errors : List ErrorDict
  discrepancies : List Discrepancy
  error_summary : List (String × Nat)
  priority_ranking : List ErrorDict
  recommended_disputes : List Recommendation
  deriving Repr, DecidableEq

/-- Embeds `ErrorDetector.analyze_report`. -/
def analyze_report (env : DetectorEnv) (report_data : ReportData) : AnalysisResult :=
  let accounts := report_data.accounts
  let parsed_data := report_data.parsed_data
  let errors := accounts.flatMap analyze_account
  let discrepancies := check_cross_bureau_discrepancies accounts
  let errors := errors ++ check_outdated_items env accounts
  let errors := errors ++ check_inquiries env parsed_data.inquiries
  let errors := errors ++ check_public_records parsed_data.public_records
  let total_impact := (errors.map (·.estimated_impact)).sum
  { total_errors := errors.length
    total_discrepancies := discrepancies.length
    total_estimated_impact := total_impact
    errors := errors
    discrepancies := discrepancies
    error_summary := summarize_errors errors
    priority_ranking := rank_by_priority errors
    recommended_disputes := generate_dispute_recommendations errors }

/-! ### Strategy builder (`backend/dispute_engine/strategy_builder.py`) -/

/-- One row of `StrategyBuilder.strategies` (the `success_rate` float literal
is embedded as the rational it denotes; it is carried as data, never
computed with). -/
structure StrategyInfo where
  name : String
  description : String
  timeline_days : Nat
  success_rate : Rat
  intensity : String
  deriving Repr, DecidableEq

def STRATEGIES : String → Option StrategyInfo
  | "factual_dispute" => some ⟨"Factual Dispute", "Direct dispute of factual inaccuracies", 30, 0.65, "standard"⟩
  | "section_609" => some ⟨"Section 609 Verification", "Request verification under FCRA § 609", 30, 0.75, "standard"⟩
  | "section_605b" => some ⟨"Section 605B Identity Theft Block", "Block fraudulent accounts under FCRA § 605B", 4, 0.90, "urgent"⟩
  | "debt_validation" => some ⟨"Debt Validation Request", "Request validation under FDCPA § 809", 30, 0.70, "firm"⟩
  | "goodwill_adjustment" => some ⟨"Goodwill Adjustment", "Request goodwill deletion", 14, 0.40, "polite"⟩
  | "fcra_violation" => some ⟨"FCRA Violation Challenge", "Challenge based on FCRA violations", 30, 0.80, "aggressive"⟩
  | "method_of_verification" => some ⟨"Method of Verification Request", "Request verification method under FCRA § 611(a)(7)", 15, 0.60, "firm"⟩
  | _ => none

/-- Embeds `StrategyBuilder._get_strategy_details`:
`self.strategies.get(key, self.strategies["factual_dispute"])`. -/
def get_strategy_details (strategy_key : String) : StrategyInfo :=
  (STRATEGIES strategy_key).getD
    ⟨"Factual Dispute", "Direct dispute of factual inaccuracies", 30, 0.65, "standard"⟩

/-- Embeds `StrategyBuilder._get_letter_type`. -/
def get_letter_type (error : ErrorDict) : String :=
  let strategy := error.dispute_strategy.getD "factual_dispute"
  let error_type := error.etype
  if error_type == "identity_theft" || error_type == "not_my_account" then "section_605b"
  else if error_type == "paid_collection" || error_type == "medical_collection_ncap" then "debt_validation"
  else if error_type == "unauthorized_inquiry" then "fcra_violation"
  else if strategy == "goodwill_adjustment" then "goodwill"
  else "bureau_dispute"

/-- One scheduled item inside a round. -/
structure RoundItem where
  error : ErrorDict
  strategy : StrategyInfo
  letter_type : String
  legal_basis : String
  deriving Repr, DecidableEq

def mkRoundItem (item : ErrorDict) : RoundItem :=
  { error := item
    strategy := get_strategy_details (item.dispute_strategy.getD "factual_dispute")
    letter_type := get_letter_type item
    legal_basis := item.fcra_section }

structure RoundPlan where
  round_number : Int
  equifax : List RoundItem
  experian : List RoundItem
  transunion : List RoundItem
  deriving Repr, DecidableEq

/-- The bureau-assignment loop of `_organize_rounds`: both branches of the
source's cross-bureau conditional append the error to all three queues. -/
def assignBureaus (sorted_errors : List ErrorDict) :
    List ErrorDict × List ErrorDict × List ErrorDict :=
  sorted_errors.foldl
    (fun acc error =>
      if error.etype == "cross_bureau_discrepancy" then
        (acc.1 ++ [error], acc.2.1 ++ [error], acc.2.2 ++ [error])
      else
        (acc.1 ++ [error], acc.2.1 ++ [error], acc.2.2 ++ [error]))
    ([], [], [])

/-- The `while any(len(items) > 0 ...)` round-creation loop of
`_organize_rounds`: up to 5 items per bureau per round. -/
def organizeLoop (round_num : Int) (eq ex tu : List ErrorDict) : List RoundPlan :=
  if eq.length > 0 || ex.length > 0 || tu.length > 0 then
    { round_number := round_num
      equifax := (eq.take 5).map mkRoundItem
      experian := (ex.take 5).map mkRoundItem
      transunion := (tu.take 5).map mkRoundItem } ::
    organizeLoop (round_num + 1) (eq.drop 5) (ex.drop 5) (tu.drop 5)
  else []
termination_by eq.length + ex.length + tu.length
decreasing_by
  simp only [List.length_drop]
  simp only [Bool.or_eq_true, decide_eq_true_eq] at *
  omega

/-- Embeds `StrategyBuilder._organize_rounds` (its sort uses the same
`(priority, -impact)` key as `ErrorDetector._rank_by_priority`). -/
def organize_rounds (errors : List ErrorDict) (start_round : Int) : List RoundPlan :=
  let sorted_errors := rank_by_priority errors
  let b := assignBureaus sorted_errors
  organizeLoop start_round b.1 b.2.1 b.2.2

def bureauItems (round_data : RoundPlan) : String → List RoundItem
  | "equifax" => round_data.equifax
  | "experian" => round_data.experian
  | "transunion" => round_data.transunion
  | _ => []

/-- One timeline entry; the three dates live on the same `Int` day line as
`DetectorEnv.now` (the source stores them as `%Y-%m-%d` strings, a faithful
image of whole days). -/
structure TimelineEntry where
  round : Int
  send_date : Int
  response_deadline : Int
  follow_up_date : Int
  bureaus : List String
  deriving Repr, DecidableEq

/-- Embeds `StrategyBuilder._create_timeline`; `base_date` is `datetime.utcnow()`. -/
def create_timeline (rounds : List RoundPlan) (start_round : Int) (base_date : Int) :
    List TimelineEntry :=
  rounds.enum.map (fun p =>
    let i := p.1
    let send_date := base_date + (i : Int) * 45
    let response_due := send_date + 30
    let follow_up := response_due + 7
    { round := start_round + i
      send_date := send_date
      response_deadline := response_due
      follow_up_date := follow_up
      bureaus := ["equifax", "experian", "transunion"].filter
        (fun b => !(bureauItems p.2 b).isEmpty) })

structure Guide where
  preparation : List String
  sending : List String
  waiting : List String
  response : List String
  follow_up : List String
  deriving Repr, DecidableEq

/-- Embeds `StrategyBuilder._generate_guide` (static content). -/
def generate_guide (_rounds : List RoundPlan) (_round_number : Int) : Guide :=
  { preparation :=
      ["Gather all credit reports", "Review error analysis", "Print dispute letters",
       "Gather supporting documentation", "Prepare certified mail envelopes"]
    sending :=
      ["Send letters via certified mail with return receipt", "Keep copies of everything sent",
       "Track delivery confirmation", "Mark calendar for response deadline"]
    waiting :=
      ["Wait 30 days for bureau response", "Check mail daily for responses",
       "Do not dispute same items during waiting period"]
    response :=
      ["Review all responses carefully", "Check for deleted/updated items",
       "Verify any remaining errors", "Prepare next round if needed"]
    follow_up :=
      ["If no response by day 37, send follow-up", "Document all outcomes",
       "Update credit reports", "Plan next round strategy"] }

structure Estimates where
  best : Int
  realistic : Int
  conservative : Int
  deriving Repr, DecidableEq

/-- Python `int(...)`: truncation toward zero. -/
def pyInt (q : Rat) : Int := q.num / (q.den : Int)

/-- Embeds `StrategyBuilder._calculate_estimates` (the float multipliers are embedded
as the rationals they denote). -/
def calculate_estimates (errors : List ErrorDict) : Estimates :=
  if errors.isEmpty then { best := 0, realistic := 0, conservative := 0 }
  else
    let total_impact : Int := (errors.map (·.estimated_impact)).sum
    { best := pyInt ((total_impact : Rat) * 1.0)
      realistic := pyInt ((total_impact : Rat) * 0.6)
      conservative := pyInt ((total_impact : Rat) * 0.3) }

/-- Embeds `StrategyBuilder._generate_checklist` (static content). -/
def generate_checklist (_rounds : List RoundPlan) : List String :=
  ["□ Review all error findings", "□ Print 3 copies of each letter",
   "□ Prepare certified mail (return receipt requested)",
   "□ Include copy of ID and proof of address",
   "□ Keep copies of everything for your records",
   "□ Mark calendar with response deadlines", "□ Set up mail tracking alerts",
   "□ Prepare follow-up calendar reminders"]

/-- Embeds `StrategyBuilder._generate_tips`. -/
def generate_tips (round_number : Int) : List String :=
  (["Never dispute online - use certified mail only",
    "Keep detailed records of all correspondence",
    "Don't dispute more than 5 items per bureau per round",
    "Wait for responses before sending next round"] ++
   (if round_number > 1 then
     ["Escalate tone in follow-up rounds", "Reference previous dispute attempts",
      "Consider FCRA violation claims if ignored"]
    else [])) ++
  (if round_number ≥ 3 then
    ["Consider CFPB complaint if bureaus don't respond",
     "Document all violations for potential legal action",
     "Consult attorney for repeated non-compliance"]
   else [])

structure BureauInfo where
  name : String
  address : String
  city_state_zip : String
  phone : String
  fax : String
  website : String
  online_dispute : String
  deriving Repr, DecidableEq

/-- Embeds `settings.BUREAU_INFO` (`backend/config.py`). -/
def BUREAU_INFO : List (String × BureauInfo) :=
  [("equifax", ⟨"Equifax Information Services LLC", "P.O. Box 740256",
     "Atlanta, GA 30374-0256", "1-800-685-1111", "1-866-795-5599",
     "www.equifax.com", "https://www.equifax.com/personal/disputes/"⟩),
   ("experian", ⟨"Experian", "P.O. Box 4500", "Allen, TX 75013",
     "1-888-397-3742", "1-972-390-3630", "www.experian.com",
     "https://www.experian.com/disputes/main.html"⟩),
   ("transunion", ⟨"TransUnion LLC", "P.O. Box 2000", "Chester, PA 19016",
     "1-800-916-8800", "1-610-546-4603", "www.transunion.com",
     "https://www.transunion.com/credit-disputes"⟩)]

/-- The `client_data` dict: only `client_data.get("id")` is read. -/
structure ClientData where
  id : Option String := none
  deriving Repr, DecidableEq

/-- The result dict of `StrategyBuilder.build_strategy`. -/
structure DisputeStrategy where
  client_id : Option String
  current_round : Int
  total_rounds : Nat
  rounds : List RoundPlan
  timeline : List TimelineEntry
  guide : Guide
  estimated_improvement : Estimates
  preparation_checklist : List String
  tips_and_warnings : List String
  bureau_addresses : List (String × BureauInfo)
  deriving Repr, DecidableEq

/-- Embeds `StrategyBuilder.build_strategy` (`round_number` defaults to 1 in the
source; `base_date` is `datetime.utcnow()`, consumed by the timeline). -/
def build_strategy (base_date : Int) (errors : List ErrorDict)
    (client_data : ClientData) (round_number : Int) : DisputeStrategy :=
  let rounds := organize_rounds errors round_number
  let timeline := create_timeline rounds round_number base_date
  let guide := generate_guide rounds round_number
  let estimates := calculate_estimates errors
  { client_id := client_data.id
    current_round := round_number
    total_rounds := rounds.length
    rounds := rounds
    timeline := timeline
    guide := guide
    estimated_improvement := estimates
    preparation_checklist := generate_checklist rounds
    tips_and_warnings := generate_tips round_number
    bureau_addresses := BUREAU_INFO }

/-! ### PDF parser masking (`backend/parsers/pdf_parser.py`) and the OCR
layer (`backend/parsers/ocr_engine.py`, `backend/parsers/ocr_integration.py`).

The external raster/recognition libraries (`pdf2image`, `pytesseract`, `PIL`)
are embedded as an explicit outcome value: `Except.ok` carries the per-page
recognized text the library calls would produce, `Except.error` the message of
the exception they would raise. -/

/-- Embeds `PDFParser._mask_account_number`. -/
def mask_account_number (account_num : String) : String :=
  if account_num = "" then ""
  else
    let a := pyStrip account_num
    if a.length > 4 then
      String.mk (List.replicate (a.length - 4) 'X' ++ a.toList.drop (a.length - 4))
    else a

/-- The fixed correction dictionary of `OCREngine._post_process_text`,
in insertion order. -/
def OCR_CORRECTIONS : List (String × String) :=
  [("Equlfax", "Equifax"), ("Equlfa", "Equifax"), ("Experlan", "Experian"),
   ("Experian", "Experian"), ("TransUnlon", "TransUnion"), ("TransUnon", "TransUnion"),
   ("credlt", "credit"), ("sc0re", "score"), ("acc0unt", "account"),
   ("b4lance", "balance"), ("p4yment", "payment"), ("h1story", "history"),
   ("negatlve", "negative"), ("posltlve", "positive"), ("inquiry", "inquiry"),
   ("1nqu1ry", "inquiry"), ("judgment", "judgment"), ("bankruptcy", "bankruptcy"),
   ("c0llectlon", "collection"), ("charg3-off", "charge-off"), ("ch4rge-off", "charge-off"),
   ("del1nquent", "delinquent"), ("p4st due", "past due"), ("curr3nt", "current"),
   ("op3ned", "opened"), ("cl0sed", "closed"), ("1lm1t", "limit"), ("h1gh", "high")]

/-- Python `str.replace`: replace every non-overlapping occurrence of `w`
by `c`, scanning left to right (the correction keys are never empty). -/
def replaceAll (w c : List Char) : List Char → List Char
  | [] => []
  | a :: rest =>
      if w ≠ [] ∧ listStarts w (a :: rest) = true then
        c ++ replaceAll w c ((a :: rest).drop w.length)
      else
        a :: replaceAll w c rest
termination_by l => l.length
decreasing_by
  · rename_i h
    simp only [List.length_drop, List.length_cons]
    cases w with
    | nil => exact absurd rfl h.1
    | cons x xs => simp only [List.length_cons]; omega
  · simp only [List.length_cons]
    omega

/-- Python `text.split(sep)` for a one-character separator. -/
def splitOnChar (sep : Char) : List Char → List (List Char)
  | [] => [[]]
  | c :: rest =>
      match splitOnChar sep rest with
      | [] => if c = sep then [[], []] else [[c]]
      | h :: t => if c = sep then [] :: h :: t else (c :: h) :: t

def pyStripChars (l : List Char) : List Char :=
  ((l.dropWhile pySpace).reverse.dropWhile pySpace).reverse

def intercalateChar (sep : Char) : List (List Char) → List Char
  | [] => []
  | [l] => l
  | l :: l' :: rest => l ++ sep :: intercalateChar sep (l' :: rest)

/-- Embeds `OCREngine._post_process_text`: sequential all-occurrence replacements,
then collapse to non-empty trimmed lines joined by newlines. -/
def post_process_text (text : String) : String :=
  let corrected := OCR_CORRECTIONS.foldl
    (fun t p => String.mk (replaceAll p.1.toList p.2.toList t.toList)) text
  let lines := ((splitOnChar '\n' corrected.toList).map pyStripChars).filter
    (fun l => l ≠ [])
  String.mk (intercalateChar '\n' lines)

/-- Embeds `OCREngine.process_pdf`: page markers are prepended to each page's text;
a raised library exception becomes the `"OCR Error: "` failure string. -/
def process_pdf (outcome : Except String (List String)) : String :=
  match outcome with
  | Except.ok pages =>
      post_process_text (String.join (pages.enum.map
        (fun p => "\n--- Page " ++ toString (p.1 + 1) ++ " ---\n" ++ p.2)))
  | Except.error e => "OCR Error: " ++ e

/-- Embeds `OCREngine.process_image`. -/
def process_image (outcome : Except String String) : String :=
  match outcome with
  | Except.ok text => post_process_text text
  | Except.error e => "OCR Error: " ++ e

/-- Python `str.startswith`. -/
def pyStartsWith (s p : String) : Bool :=
  listStarts p.toList s.toList

/-- Outcome of `PDFParser.parse_report` as consulted by the integration
layer: either the error dict `{"error": ..., "file_path": ...}` or a parsed
report, of which only the three sufficiency signals are read
(truthiness of `personal_info`, `any(scores.values())`, `len(accounts)`). -/
inductive PdfParse where
  | err (msg : String)
  | ok (has_personal_info : Bool) (any_score : Bool) (num_accounts : Nat)
  deriving Repr, DecidableEq

/-- Embeds `has_meaningful_data` of `OCRIntegration.process_credit_report` (on the
error dict all three signals are falsy). -/
def has_meaningful_data : PdfParse → Bool
  | PdfParse.err _ => false
  | PdfParse.ok pi sc n => pi || sc || decide (0 < n)

/-- Python `"error" in pdf_data`. -/
def has_error_key : PdfParse → Bool
  | PdfParse.err _ => true
  | PdfParse.ok _ _ _ => false

/-- The `data` slot of the integration result: initially the empty dict,
replaced by parsed data on the direct path or OCR-derived data. -/
inductive ProcData where
  | emptyDict
  | fromPdf (p : PdfParse)
  | fromOcr (raw_text : String)
  deriving Repr, DecidableEq

structure ProcessResult where
  success : Bool
  data : ProcData
  errors : List String
  method_used : Option String
  deriving Repr, DecidableEq

/-- Embeds `OCRIntegration.process_credit_report`: direct extraction first, OCR
fallback, explicit failure record when both fail. -/
def process_credit_report (pdf_data : PdfParse)
    (ocr_outcome : Except String (List String)) : ProcessResult :=
  if has_meaningful_data pdf_data && !has_error_key pdf_data then
    { success := true, data := ProcData.fromPdf pdf_data, errors := []
      method_used := some "pdf_parser" }
  else
    let ocr_text := process_pdf ocr_outcome
    if !pyStartsWith ocr_text "OCR Error" then
      { success := true, data := ProcData.fromOcr (String.mk (ocr_text.toList.take 50000))
        errors := [], method_used := some "ocr" }
    else
      { success := false, data := ProcData.emptyDict
        errors := ["Both PDF parsing and OCR failed"], method_used := none }

/-! ### Helper lemmas -/

@[simp]
theorem mkRoundItem_error (e : ErrorDict) : (mkRoundItem e).error = e := rfl

theorem length_insertRanked (a : ErrorDict) (l : List ErrorDict) :
    (insertRanked a l).length = l.length + 1 := by
  induction l with
  | nil => rfl
  | cons b bs ih =>
      unfold insertRanked
      split
      · simp
      · simp [ih]

theorem length_rank_aux (l : List ErrorDict) (acc : List ErrorDict) :
    (l.foldl (fun acc a => insertRanked a acc) acc).length = acc.length + l.length := by
  induction l generalizing acc with
  | nil => simp
  | cons a as ih =>
      simp only [List.foldl_cons]
      rw [ih, length_insertRanked]
      simp only [List.length_cons]
      omega

theorem length_rank_by_priority (l : List ErrorDict) :
    (rank_by_priority l).length = l.length := by
  unfold rank_by_priority
  rw [length_rank_aux]
  simp

theorem assignBureaus_aux (l : List ErrorDict)
    (acc : List ErrorDict × List ErrorDict × List ErrorDict) :
    l.foldl
      (fun acc error =>
        if error.etype == "cross_bureau_discrepancy" then
          (acc.1 ++ [error], acc.2.1 ++ [error], acc.2.2 ++ [error])
        else
          (acc.1 ++ [error], acc.2.1 ++ [error], acc.2.2 ++ [error])) acc
      = (acc.1 ++ l, acc.2.1 ++ l, acc.2.2 ++ l) := by
  induction l generalizing acc with
  | nil => simp
  | cons a as ih =>
      simp only [List.foldl_cons, ite_self] at ih ⊢
      rw [ih]
      simp

theorem assignBureaus_eq (l : List ErrorDict) : assignBureaus l = (l, l, l) := by
  unfold assignBureaus
  rw [assignBureaus_aux]
  simp

theorem organizeLoop_stop (r : Int) : organizeLoop r [] [] [] = [] := by
  rw [organizeLoop]
  simp

theorem organizeLoop_step (r : Int) (eq ex tu : List ErrorDict)
    (h : 0 < eq.length ∨ 0 < ex.length ∨ 0 < tu.length) :
    organizeLoop r eq ex tu =
      { round_number := r
        equifax := (eq.take 5).map mkRoundItem
        experian := (ex.take 5).map mkRoundItem
        transunion := (tu.take 5).map mkRoundItem } ::
      organizeLoop (r + 1) (eq.drop 5) (ex.drop 5) (tu.drop 5) := by
  have hc : (eq.length > 0 || ex.length > 0 || tu.length > 0) = true := by
    simp only [Bool.or_eq_true, decide_eq_true_eq]
    omega
  rw [organizeLoop, if_pos hc]

theorem organizeLoop_le_five (r : Int) (a b c : List ErrorDict) :
    ∀ rp ∈ organizeLoop r a b c,
      rp.equifax.length ≤ 5 ∧ rp.experian.length ≤ 5 ∧ rp.transunion.length ≤ 5 := by
  induction r, a, b, c using organizeLoop.induct with
  | case1 r a b c h ih =>
      have h' : 0 < a.length ∨ 0 < b.length ∨ 0 < c.length := by
        simp only [Bool.or_eq_true, decide_eq_true_eq] at h
        omega
      rw [organizeLoop_step r a b c h']
      intro rp hrp
      rcases List.mem_cons.mp hrp with hrp | hrp
      · subst hrp
        refine ⟨?_, ?_, ?_⟩ <;> simp [List.length_take]
      · exact ih rp hrp
  | case2 r a b c h =>
      rw [organizeLoop]
      simp_all

theorem organizeLoop_flatten (r : Int) (a b c : List ErrorDict) :
    ((((organizeLoop r a b c).map (·.equifax)).flatten).map (·.error) = a) ∧
    ((((organizeLoop r a b c).map (·.experian)).flatten).map (·.error) = b) ∧
    ((((organizeLoop r a b c).map (·.transunion)).flatten).map (·.error) = c) := by
  induction r, a, b, c using organizeLoop.induct with
  | case1 r a b c h ih =>
      have h' : 0 < a.length ∨ 0 < b.length ∨ 0 < c.length := by
        simp only [Bool.or_eq_true, decide_eq_true_eq] at h
        omega
      rw [organizeLoop_step r a b c h']
      obtain ⟨ih1, ih2, ih3⟩ := ih
      refine ⟨?_, ?_, ?_⟩ <;>
        simp [List.map_cons, List.flatten_cons, List.map_append, List.map_map,
          Function.comp_def, ih1, ih2, ih3, List.take_append_drop]
  | case2 r a b c h =>
      have hlen : a.length = 0 ∧ b.length = 0 ∧ c.length = 0 := by
        by_contra hcon
        apply h
        simp only [Bool.or_eq_true, decide_eq_true_eq]
        omega
      obtain ⟨h1, h2, h3⟩ := hlen
      rw [List.eq_nil_of_length_eq_zero h1, List.eq_nil_of_length_eq_zero h2,
        List.eq_nil_of_length_eq_zero h3, organizeLoop_stop]
      simp

theorem organize_rounds_nil (start : Int) : organize_rounds [] start = [] := by
  unfold organize_rounds
  simp only [assignBureaus_eq]
  exact organizeLoop_stop start

/-- C9: `buildStrategy` on an empty violation list returns zero rounds, an
empty timeline and all-zero score-improvement estimates, for every client,
starting round number and evaluation time. -/
theorem buildStrategy_empty_violations (client : ClientData) (round_number base : Int) :
    (build_strategy base [] client round_number).total_rounds = 0 ∧
    (build_strategy base [] client round_number).rounds = [] ∧
    (build_strategy base [] client round_number).timeline = [] ∧
    (build_strategy base [] client round_number).estimated_improvement =
      { best := 0, realistic := 0, conservative := 0 } := by
  refine ⟨?_, ?_, ?_, ?_⟩ <;>
    simp [build_strategy, organize_rounds_nil, create_timeline, calculate_estimates]

/-- The sample violation used to instantiate universally quantified claim
theorems on concrete inputs. -/
def sampleError : ErrorDict :=
  { etype := "closed_with_balance"
    name := some "Closed Account with Balance"
    description := "Closed/paid account shows $100 balance"
    severity := "high"
    fcra_section := "623(a)(1)"
    estimated_impact := 15
    dispute_strategy := some "factual_dispute"
    priority := some 2 }

/-- C4: 12 violations with start round 1 give exactly 3 rounds with per-bureau
queue sizes [5, 5, 2]; in general every per-bureau round slice holds at most 5
items, and concatenating each bureau's slices over all rounds recovers that
bureau's full (priority-sorted) queue, i.e. rounds are created until every
queue is empty. -/
theorem buildStrategy_round_capping :
    (∀ (errors : List ErrorDict) (client : ClientData) (base : Int),
       errors.length = 12 →
       (build_strategy base errors client 1).total_rounds = 3 ∧
       (build_strategy base errors client 1).rounds.map
           (fun rp => (rp.round_number, rp.equifax.length, rp.experian.length,
             rp.transunion.length))
         = [(1, 5, 5, 5), (2, 5, 5, 5), (3, 2, 2, 2)]) ∧
    (∀ (errors : List ErrorDict) (start : Int),
       ∀ rp ∈ organize_rounds errors start,
         rp.equifax.length ≤ 5 ∧ rp.experian.length ≤ 5 ∧ rp.transunion.length ≤ 5) ∧
    (∀ (errors : List ErrorDict) (start : Int),
       ((((organize_rounds errors start).map (·.equifax)).flatten).map (·.error)
          = rank_by_priority errors) ∧
       ((((organize_rounds errors start).map (·.experian)).flatten).map (·.error)
          = rank_by_priority errors) ∧
       ((((organize_rounds errors start).map (·.transunion)).flatten).map (·.error)
          = rank_by_priority errors)) := by
  refine ⟨?_, ?_, ?_⟩
  · intro errors client base h12
    set s := rank_by_priority errors with hs
    have hsl : s.length = 12 := by rw [hs, length_rank_by_priority, h12]
    have h5 : (s.drop 5).length = 7 := by rw [List.length_drop, hsl]
    have h10 : ((s.drop 5).drop 5).length = 2 := by rw [List.length_drop, h5]
    have h15 : (((s.drop 5).drop 5).drop 5) = [] := by
      apply List.eq_nil_of_length_eq_zero
      rw [List.length_drop, h10]
    have e1 := organizeLoop_step 1 s s s (Or.inl (by omega))
    have e2 := organizeLoop_step (1 + 1) (s.drop 5) (s.drop 5) (s.drop 5)
      (Or.inl (by omega))
    have e3 := organizeLoop_step (1 + 1 + 1) ((s.drop 5).drop 5) ((s.drop 5).drop 5)
      ((s.drop 5).drop 5) (Or.inl (by omega))
    have hor : organize_rounds errors 1 =
        [{ round_number := 1
           equifax := (s.take 5).map mkRoundItem
           experian := (s.take 5).map mkRoundItem
           transunion := (s.take 5).map mkRoundItem },
         { round_number := 1 + 1
           equifax := ((s.drop 5).take 5).map mkRoundItem
           experian := ((s.drop 5).take 5).map mkRoundItem
           transunion := ((s.drop 5).take 5).map mkRoundItem },
         { round_number := 1 + 1 + 1
           equifax := (((s.drop 5).drop 5).take 5).map mkRoundItem
           experian := (((s.drop 5).drop 5).take 5).map mkRoundItem
           transunion := (((s.drop 5).drop 5).take 5).map mkRoundItem }] := by
      unfold organize_rounds
      simp only [assignBureaus_eq, ← hs]
      rw [e1, e2, e3, h15, organizeLoop_stop]
    constructor
    · simp [build_strategy, hor]
    · simp only [build_strategy, hor, List.map_cons, List.map_nil, List.length_map,
        List.length_take, hsl, h5, h10]
      norm_num
  · intro errors start rp hrp
    unfold organize_rounds at hrp
    simp only [assignBureaus_eq] at hrp
    exact organizeLoop_le_five _ _ _ _ rp hrp
  · intro errors start
    unfold organize_rounds
    simp only [assignBureaus_eq]
    exact organizeLoop_flatten _ _ _ _

/-- Witness for C4 at a concrete list of 12 violations. -/
theorem buildStrategy_round_capping_witness :
    (build_strategy 0 (List.replicate 12 sampleError) {} 1).total_rounds = 3 :=
  (buildStrategy_round_capping.1 (List.replicate 12 sampleError) {} 0 (by simp)).1

theorem create_timeline_length (rounds : List RoundPlan) (start base : Int) :
    (create_timeline rounds start base).length = rounds.length := by
  simp [create_timeline]

theorem create_timeline_get (rounds : List RoundPlan) (start base : Int) (i : Nat)
    (hi : i < (create_timeline rounds start base).length) :
    ((create_timeline rounds start base).get ⟨i, hi⟩).round = start + i ∧
    ((create_timeline rounds start base).get ⟨i, hi⟩).send_date = base + i * 45 ∧
    ((create_timeline rounds start base).get ⟨i, hi⟩).response_deadline
      = base + i * 45 + 30 ∧
    ((create_timeline rounds start base).get ⟨i, hi⟩).follow_up_date
      = base + i * 45 + 30 + 7 := by
  have hi' : i < rounds.length := by
    rw [← create_timeline_length rounds start base]
    exact hi
  unfold create_timeline
  simp [List.get_eq_getElem, List.getElem_map, List.getElem_enum]

theorem organize_rounds_length_pos (errors : List ErrorDict) (start : Int)
    (h : errors ≠ []) : 0 < (organize_rounds errors start).length := by
  unfold organize_rounds
  simp only [assignBureaus_eq]
  have hlen : 0 < (rank_by_priority errors).length := by
    rw [length_rank_by_priority]
    exact List.length_pos.mpr h
  rw [organizeLoop_step start _ _ _ (Or.inl hlen)]
  simp

/-- C5: for a non-empty violation list, the timeline entry at 0-indexed
position `i` is sent at `now + i·45` days, its response deadline is its send
date + 30 days and its follow-up date is the deadline + 7 days; in particular
with start round 1, round 2's send date is round 1's send date + 45 days and
its deadline its own send date + 30. -/
theorem buildStrategy_timeline_arithmetic (errors : List ErrorDict)
    (client : ClientData) (base start : Int) (hne : errors ≠ []) :
    1 ≤ (build_strategy base errors client start).timeline.length ∧
    (∀ (i : Nat) (hi : i < (build_strategy base errors client start).timeline.length),
      (((build_strategy base errors client start).timeline.get ⟨i, hi⟩).send_date
          = base + i * 45) ∧
      (((build_strategy base errors client start).timeline.get ⟨i, hi⟩).response_deadline
          = ((build_strategy base errors client start).timeline.get ⟨i, hi⟩).send_date + 30) ∧
      (((build_strategy base errors client start).timeline.get ⟨i, hi⟩).follow_up_date
          = ((build_strategy base errors client start).timeline.get ⟨i, hi⟩).response_deadline + 7)) ∧
    (∀ (h2 : 1 < (build_strategy base errors client 1).timeline.length),
      (((build_strategy base errors client 1).timeline.get ⟨1, h2⟩).send_date
          = ((build_strategy base errors client 1).timeline.get ⟨0, by omega⟩).send_date + 45) ∧
      (((build_strategy base errors client 1).timeline.get ⟨1, h2⟩).response_deadline
          = ((build_strategy base errors client 1).timeline.get ⟨1, h2⟩).send_date + 30)) := by
  have hget : ∀ (st : Int) (i : Nat)
      (hi : i < (build_strategy base errors client st).timeline.length),
      (((build_strategy base errors client st).timeline.get ⟨i, hi⟩).round = st + i) ∧
      (((build_strategy base errors client st).timeline.get ⟨i, hi⟩).send_date
          = base + i * 45) ∧
      (((build_strategy base errors client st).timeline.get ⟨i, hi⟩).response_deadline
          = base + i * 45 + 30) ∧
      (((build_strategy base errors client st).timeline.get ⟨i, hi⟩).follow_up_date
          = base + i * 45 + 30 + 7) :=
    fun st i hi => create_timeline_get (organize_rounds errors st) st base i hi
  refine ⟨?_, ?_, ?_⟩
  · have h1 : (build_strategy base errors client start).timeline
        = create_timeline (organize_rounds errors start) start base := rfl
    rw [h1, create_timeline_length]
    exact organize_rounds_length_pos errors start hne
  · intro i hi
    obtain ⟨-, hsend, hdl, hfu⟩ := hget start i hi
    exact ⟨hsend, by rw [hdl, hsend], by rw [hfu, hdl]⟩
  · intro h2
    obtain ⟨-, hsend1, hdl1, -⟩ := hget 1 1 h2
    obtain ⟨-, hsend0, -, -⟩ := hget 1 0 (by omega)
    refine ⟨?_, by rw [hdl1, hsend1]⟩
    rw [hsend1, hsend0]
    norm_num

/-- Witness for C5 at a concrete one-violation input. -/
theorem buildStrategy_timeline_arithmetic_witness :
    1 ≤ (build_strategy 0 [sampleError] {} 1).timeline.length :=
  (buildStrategy_timeline_arithmetic [sampleError] {} 0 1 (by simp)).1

/-- The single account of the C1 end-to-end scenario. -/
def c1Account : Account :=
  { creditor_name := some "ABC Bank"
    account_status := some "open"
    current_balance := some 1200
    credit_limit := some 1000
    late_30_count := some 0
    late_60_count := some 0
    late_90_count := some 0 }

def c1Report : ReportData := { accounts := [c1Account] }

/-- C1: the report with one "ABC Bank" account (balance 1200, limit 1000,
status open, zero late counters, all flags false, no inquiries or public
records) yields exactly one violation: a `balance_exceeds_limit` with
estimated impact 10, severity high and priority 2, for every evaluation
time. -/
theorem analyzeReport_abc_bank (env : DetectorEnv) :
    (analyze_report env c1Report).total_errors = 1 ∧
    ((analyze_report env c1Report).errors.map
        (fun e => (e.etype, e.estimated_impact, e.severity, e.priority)))
      = [("balance_exceeds_limit", 10, "high", some 2)] ∧
    (analyze_report env c1Report).discrepancies = [] :=
  ⟨rfl, rfl, rfl⟩

@[simp]
theorem create_error_etype (t : String) (a : Account) (d : String) :
    (create_error t a d).etype = t := rfl

/-- Predicate picking out `impossible_late_pattern` violations. -/
def isImpossibleLate (e : ErrorDict) : Bool :=
  e.etype == "impossible_late_pattern"

theorem countP_if_single (c : Prop) [Decidable c] (e : ErrorDict) (p : ErrorDict → Bool) :
    (if c then [e] else []).countP p = if c then (if p e then 1 else 0) else 0 := by
  split <;> simp [List.countP_cons]

def c2AccountA : Account :=
  { late_90_count := some 1, late_30_count := some 0, late_60_count := some 0 }

def c2AccountB : Account :=
  { late_30_count := some 1, late_60_count := some 1, late_90_count := some 1 }

/-- C2: per-account analysis emits an `impossible_late_pattern` violation
exactly when the 90-day-late count is positive while the 30-day or the 60-day
bucket is zero (and then exactly one); the two concrete examples of the spec
behave as stated. -/
theorem impossibleLatePattern_iff :
    (∀ account : Account,
       (analyze_account account).countP isImpossibleLate
         = if 0 < account.late_90_count.getD 0 ∧
              (account.late_30_count.getD 0 = 0 ∨ account.late_60_count.getD 0 = 0)
           then 1 else 0) ∧
    ((analyze_account c2AccountA).map (fun e => e.etype) = ["impossible_late_pattern"]) ∧
    ((analyze_account c2AccountB).countP isImpossibleLate = 0) := by
  refine ⟨?_, rfl, rfl⟩
  intro account
  unfold analyze_account
  simp only [List.countP_append, countP_if_single]
  have h1 : isImpossibleLate (create_error "balance_exceeds_limit" account
      ("Balance ($" ++ toString (account.current_balance.getD 0) ++ ") exceeds limit ($"
        ++ toString (account.credit_limit.getD 0) ++ ")")) = false := by
    simp [isImpossibleLate]
  have h2 : ∀ d, isImpossibleLate (create_error "missing_credit_limit" account d) = false := by
    intro d
    simp [isImpossibleLate]
  have h3 : ∀ d, isImpossibleLate (create_error "impossible_late_pattern" account d) = true := by
    intro d
    simp [isImpossibleLate]
  have h4 : ∀ d, isImpossibleLate (create_error "closed_with_balance" account d) = false := by
    intro d
    simp [isImpossibleLate]
  have h5 : ∀ d, isImpossibleLate (create_error "medical_collection_ncap" account d) = false := by
    intro d
    simp [isImpossibleLate]
  have h6 : ∀ d, isImpossibleLate (create_error "authorized_user_negative" account d) = false := by
    intro d
    simp [isImpossibleLate]
  rw [h1, h3 "90+ day late without corresponding 30/60 day lates",
    h2 "Credit limit not reported",
    h4 ("Closed/paid account shows $" ++ toString (account.current_balance.getD 0) ++ " balance"),
    h5 "Medical collection - may be eligible for NCAP removal",
    h6 "Authorized user account showing negative history"]
  have hcond : ((decide (account.late_90_count.getD 0 > 0) &&
      (account.late_30_count.getD 0 == 0 || account.late_60_count.getD 0 == 0)) = true)
      ↔ (0 < account.late_90_count.getD 0 ∧
         (account.late_30_count.getD 0 = 0 ∨ account.late_60_count.getD 0 = 0)) := by
    simp [Bool.and_eq_true, Bool.or_eq_true, decide_eq_true_eq, beq_iff_eq]
  simp [hcond, ite_self]

/-- C7: the embedded `analyze_report` is a pure function of the structured
report and the detector environment (the wall clock and the date parsers,
made explicit inputs of the embedding); two runs on identical inputs —
including identical evaluation times for the date-window rules — give
identical results in every component. -/
theorem analyzeReport_deterministic (env₁ env₂ : DetectorEnv) (r₁ r₂ : ReportData)
    (henv : env₁ = env₂) (hr : r₁ = r₂) :
    analyze_report env₁ r₁ = analyze_report env₂ r₂ := by
  subst henv hr
  rfl

/-- Witness for C7 at a concrete environment and report. -/
theorem analyzeReport_deterministic_witness :
    analyze_report ⟨0, fun _ => none, fun _ => none⟩ c1Report
      = analyze_report ⟨0, fun _ => none, fun _ => none⟩ c1Report :=
  analyzeReport_deterministic ⟨0, fun _ => none, fun _ => none⟩
    ⟨0, fun _ => none, fun _ => none⟩ c1Report c1Report rfl rfl

theorem incKey_sum (k : String) (s : List (String × Nat)) :
    ((incKey k s).map (·.2)).sum = ((s.map (·.2)).sum) + 1 := by
  induction s with
  | nil => simp [incKey]
  | cons p rest ih =>
      unfold incKey
      split
      · simp only [List.map_cons, List.sum_cons]
        omega
      · simp only [List.map_cons, List.sum_cons, ih]
        omega

theorem summarize_foldl (l : List ErrorDict) (init : List (String × Nat)) :
    ((l.foldl (fun s e => incKey e.severity s) init).map (·.2)).sum
      = ((init.map (·.2)).sum) + l.length := by
  induction l generalizing init with
  | nil => simp
  | cons e es ih =>
      simp only [List.foldl_cons]
      rw [ih, incKey_sum]
      simp only [List.length_cons]
      omega

theorem summarize_sum (errors : List ErrorDict) :
    ((summarize_errors errors).map (·.2)).sum = errors.length := by
  unfold summarize_errors
  rw [summarize_foldl]
  simp

@[simp]
theorem mkRecommendation_error_type (i : Nat) (e : ErrorDict) :
    (mkRecommendation i e).error_type = e.etype := rfl

theorem recommendations_map_etype (l : List ErrorDict) :
    ((((l.take 15).enum).map (fun p => mkRecommendation p.1 p.2)).map (·.error_type))
      = (l.take 15).map (·.etype) := by
  rw [List.map_map]
  rw [show ((fun (x : Recommendation) => x.error_type)
        ∘ fun p : Nat × ErrorDict => mkRecommendation p.1 p.2)
      = ((fun e : ErrorDict => e.etype) ∘ Prod.snd) from rfl]
  rw [← List.map_map, List.enum_map_snd]

/-- C10: the analysis output is internally consistent: the stored totals
equal the lengths of the lists, the total impact is the sum over the error
list only, the severity histogram counts sum to the error total, and the
recommendation list is the first ≤ 15 entries of the priority ranking in
order (discrepancies never enter the ranking, the impact total or the
recommendations). -/
theorem analyzeReport_consistency (env : DetectorEnv) (report : ReportData) :
    (analyze_report env report).total_errors = (analyze_report env report).errors.length ∧
    (analyze_report env report).total_discrepancies
      = (analyze_report env report).discrepancies.length ∧
    (analyze_report env report).total_estimated_impact
      = ((analyze_report env report).errors.map (·.estimated_impact)).sum ∧
    ((analyze_report env report).error_summary.map (·.2)).sum
      = (analyze_report env report).total_errors ∧
    (analyze_report env report).recommended_disputes.length ≤ 15 ∧
    ((analyze_report env report).recommended_disputes.map (·.error_type)
      = ((analyze_report env report).priority_ranking.take 15).map (·.etype)) ∧
    (analyze_report env report).priority_ranking.length
      = (analyze_report env report).errors.length := by
  refine ⟨rfl, rfl, rfl, ?_, ?_, ?_, ?_⟩
  · exact summarize_sum _
  · show (generate_dispute_recommendations (analyze_report env report).errors).length ≤ 15
    unfold generate_dispute_recommendations
    simp only [List.length_map, List.enum_length, List.length_take]
    omega
  · exact recommendations_map_etype _
  · exact length_rank_by_priority _

/-- C6 counterexample: `_mask_account_number` first strips surrounding
whitespace, so for a raw number with trailing whitespace the stored masked
number is shorter than the raw number, refuting the same-length claim. -/
theorem mask_account_number_length_counterexample :
    ¬ (mask_account_number "1234567 ").length = ("1234567 " : String).length := by
  decide

/-- C6 (amended): for every raw account number without leading or trailing
whitespace (i.e. one fixed by Python's `strip`), the masked number has the
same length, keeps exactly the final 4 characters, and every preceding
character is the mask character `X`. -/
theorem mask_account_number_spec (raw : String) (h : pyStrip raw = raw) :
    (mask_account_number raw).length = raw.length ∧
    (mask_account_number raw).toList.drop ((mask_account_number raw).length - 4)
      = raw.toList.drop (raw.length - 4) ∧
    (∀ c ∈ (mask_account_number raw).toList.take ((mask_account_number raw).length - 4),
       c = 'X') := by
  by_cases h0 : raw = ""
  · subst h0
    refine ⟨rfl, rfl, ?_⟩
    intro c hc
    simp [mask_account_number] at hc
  · have hm : mask_account_number raw =
        if raw.length > 4 then
          String.mk (List.replicate (raw.length - 4) 'X'
            ++ raw.toList.drop (raw.length - 4))
        else raw := by
      unfold mask_account_number
      rw [if_neg h0]
      simp only [h]
    by_cases h4 : raw.length > 4
    · rw [hm, if_pos h4]
      have hlen : (String.mk (List.replicate (raw.length - 4) 'X'
          ++ raw.toList.drop (raw.length - 4))).length = raw.length := by
        show (List.replicate (raw.length - 4) 'X'
          ++ raw.toList.drop (raw.length - 4)).length = raw.length
        rw [List.length_append, List.length_replicate, List.length_drop]
        have : raw.toList.length = raw.length := rfl
        omega
      have hTL : (String.mk (List.replicate (raw.length - 4) 'X'
          ++ raw.toList.drop (raw.length - 4))).toList
          = List.replicate (raw.length - 4) 'X' ++ raw.toList.drop (raw.length - 4) := rfl
      have e1 : List.drop (raw.length - 4) (List.replicate (raw.length - 4) 'X'
          ++ raw.toList.drop (raw.length - 4)) = raw.toList.drop (raw.length - 4) := by
        have := List.drop_left (List.replicate (raw.length - 4) 'X')
          (raw.toList.drop (raw.length - 4))
        rwa [List.length_replicate] at this
      have e2 : List.take (raw.length - 4) (List.replicate (raw.length - 4) 'X'
          ++ raw.toList.drop (raw.length - 4)) = List.replicate (raw.length - 4) 'X' := by
        have := List.take_left (List.replicate (raw.length - 4) 'X')
          (raw.toList.drop (raw.length - 4))
        rwa [List.length_replicate] at this
      refine ⟨hlen, ?_, ?_⟩
      · rw [hlen, hTL]
        exact e1
      · rw [hlen]
        intro c hc
        rw [hTL, e2] at hc
        exact List.eq_of_mem_replicate hc
    · rw [hm, if_neg h4]
      refine ⟨rfl, rfl, ?_⟩
      intro c hc
      have : raw.length - 4 = 0 := by omega
      rw [this] at hc
      simp at hc

/-- Witness for the amended C6 at a concrete whitespace-free number. -/
theorem mask_account_number_spec_witness :
    pyStrip "12345678" = "12345678" ∧
    (mask_account_number "12345678").length = ("12345678" : String).length :=
  ⟨by decide, (mask_account_number_spec "12345678" (by decide)).1⟩

/-- The raw-account-number identity key used for cross-bureau grouping. -/
def acctKey (a : Account) : String := a.account_number.getD ""

theorem addToGroups_inv (P : Account → Prop) (k : String) (a : Account)
    (groups : List (String × List Account)) (hk : k ≠ "")
    (hg : ∀ g ∈ groups, g.1 ≠ "" ∧ ∀ x ∈ g.2, P x ∧ acctKey x = g.1)
    (ha : P a) (hak : acctKey a = k) :
    ∀ g ∈ addToGroups k a groups, g.1 ≠ "" ∧ ∀ x ∈ g.2, P x ∧ acctKey x = g.1 := by
  induction groups with
  | nil =>
      intro g hgm
      simp only [addToGroups, List.mem_singleton] at hgm
      subst hgm
      refine ⟨hk, ?_⟩
      intro x hx
      simp only [List.mem_singleton] at hx
      subst hx
      exact ⟨ha, hak⟩
  | cons g0 rest ih =>
      obtain ⟨k0, l0⟩ := g0
      intro g hgm
      unfold addToGroups at hgm
      by_cases hke : k = k0
      · rw [if_pos hke] at hgm
        rcases List.mem_cons.mp hgm with hgm | hgm
        · subst hgm
          obtain ⟨hk0, hmem⟩ := hg (k0, l0) (List.mem_cons_self _ _)
          refine ⟨hk0, ?_⟩
          intro x hx
          rcases List.mem_append.mp hx with hx | hx
          · exact hmem x hx
          · simp only [List.mem_singleton] at hx
            subst hx
            exact ⟨ha, by rw [hak, hke]⟩
        · exact hg g (List.mem_cons_of_mem _ hgm)
      · rw [if_neg hke] at hgm
        rcases List.mem_cons.mp hgm with hgm | hgm
        · subst hgm
          exact hg _ (List.mem_cons_self _ _)
        · exact ih (fun g' hg' => hg g' (List.mem_cons_of_mem _ hg')) g hgm

theorem groupByAcct_fold_inv (P : Account → Prop) (l : List Account)
    (init : List (String × List Account)) (hl : ∀ a ∈ l, P a)
    (hinit : ∀ g ∈ init, g.1 ≠ "" ∧ ∀ x ∈ g.2, P x ∧ acctKey x = g.1) :
    ∀ g ∈ l.foldl
        (fun groups account =>
          let acct_num := account.account_number.getD ""
          if acct_num = "" then groups else addToGroups acct_num account groups)
        init,
      g.1 ≠ "" ∧ ∀ x ∈ g.2, P x ∧ acctKey x = g.1 := by
  induction l generalizing init with
  | nil => simpa using hinit
  | cons a as ih =>
      simp only [List.foldl_cons]
      apply ih
      · intro x hx
        exact hl x (List.mem_cons_of_mem _ hx)
      · by_cases hke : a.account_number.getD "" = ""
        · simpa [hke] using hinit
        · simp only [hke, if_neg, ite_false]
          exact addToGroups_inv P _ a init hke hinit (hl a (List.mem_cons_self _ _)) rfl

theorem groupByAcct_inv (accounts : List Account) :
    ∀ g ∈ groupByAcct accounts,
      g.1 ≠ "" ∧ ∀ x ∈ g.2, x ∈ accounts ∧ acctKey x = g.1 :=
  groupByAcct_fold_inv (· ∈ accounts) accounts []
    (fun _ ha => ha) (by intro g hg; simp at hg)

theorem dedup_length_le_one {α : Type} [DecidableEq α] (c : α) (xs : List α)
    (h : ∀ x ∈ xs, x = c) : xs.dedup.length ≤ 1 := by
  induction xs with
  | nil => simp
  | cons a t ih =>
      have ha : a = c := h a (List.mem_cons_self _ _)
      by_cases hm : a ∈ t
      · rw [List.dedup_cons_of_mem hm]
        exact ih (fun x hx => h x (List.mem_cons_of_mem _ hx))
      · rw [List.dedup_cons_of_not_mem hm]
        have ht : t = [] := by
          cases t with
          | nil => rfl
          | cons b bs =>
              exfalso
              apply hm
              have hb : b = c := h b (List.mem_cons_of_mem _ (List.mem_cons_self _ _))
              rw [ha, ← hb]
              exact List.mem_cons_self _ _
        subst ht
        simp

theorem groupDiscrepancies_eq_nil (k : String) (l : List Account)
    (hb : ∀ x ∈ l, ∀ y ∈ l, x.current_balance.getD 0 = y.current_balance.getD 0)
    (hs : ∀ x ∈ l, ∀ y ∈ l, x.account_status.getD "" = y.account_status.getD "") :
    groupDiscrepancies k l = [] := by
  unfold groupDiscrepancies
  by_cases hlen : l.length > 1
  · rw [if_pos hlen]
    cases l with
    | nil => simp at hlen
    | cons a0 rest =>
        have hbal : ((a0 :: rest).map (fun a => a.current_balance.getD 0)).dedup.length ≤ 1 := by
          apply dedup_length_le_one (a0.current_balance.getD 0)
          intro x hx
          obtain ⟨y, hy, hyx⟩ := List.mem_map.mp hx
          rw [← hyx]
          exact hb y hy a0 (List.mem_cons_self _ _)
        have hst : ((a0 :: rest).map (fun a => a.account_status.getD "")).dedup.length ≤ 1 := by
          apply dedup_length_le_one (a0.account_status.getD "")
          intro x hx
          obtain ⟨y, hy, hyx⟩ := List.mem_map.mp hx
          rw [← hyx]
          exact hs y hy a0 (List.mem_cons_self _ _)
        have hb' : ¬ ((a0 :: rest).map
            (fun a => a.current_balance.getD 0)).dedup.length > 1 := by omega
        have hs' : ¬ ((a0 :: rest).map
            (fun a => a.account_status.getD "")).dedup.length > 1 := by omega
        rw [if_neg hb', if_neg hs']
        rfl
  · rw [if_neg hlen]

theorem flatMap_eq_nil_of_forall {α β : Type} (f : α → List β) (l : List α)
    (h : ∀ x ∈ l, f x = []) : l.flatMap f = [] := by
  induction l with
  | nil => rfl
  | cons a as ih =>
      simp only [List.flatMap_cons, h a (List.mem_cons_self _ _), List.nil_append]
      exact ih (fun x hx => h x (List.mem_cons_of_mem _ hx))

/-- The two account records of the C3 concrete scenario: same account number,
balances 500 and 750, equal status strings. -/
def c3AccountA (num st : String) : Account :=
  { account_number := some num, current_balance := some 500, account_status := some st }

def c3AccountB (num st : String) : Account :=
  { account_number := some num, current_balance := some 750, account_status := some st }

/-- C3: two records sharing a (non-empty) account number with balances 500
and 750 and equal statuses give exactly one `cross_bureau_discrepancy` whose
description cites both balances; records that agree on balance and status
for every shared number give zero discrepancies; per group of ≥ 2 records
one discrepancy is emitted per differing field; and every discrepancy has
type `cross_bureau_discrepancy`. -/
theorem crossBureauDiscrepancy_spec :
    (∀ (num st : String), num ≠ "" →
       check_cross_bureau_discrepancies [c3AccountA num st, c3AccountB num st]
         = [{ dtype := "cross_bureau_discrepancy", account_number := num
              description := "Balance varies across bureaus: [500, 750]"
              severity := "high", fcra_section := "623(a)(1)" }] ∧
       pyContains "Balance varies across bureaus: [500, 750]" "500" = true ∧
       pyContains "Balance varies across bureaus: [500, 750]" "750" = true) ∧
    (∀ accounts : List Account,
       (∀ x ∈ accounts, ∀ y ∈ accounts,
          acctKey x = acctKey y → acctKey x ≠ "" →
          x.current_balance.getD 0 = y.current_balance.getD 0 ∧
          x.account_status.getD "" = y.account_status.getD "") →
       check_cross_bureau_discrepancies accounts = []) ∧
    (∀ (k : String) (l : List Account), 1 < l.length →
       (groupDiscrepancies k l).length
         = (if 1 < (l.map (fun a => a.current_balance.getD 0)).dedup.length
            then 1 else 0)
           + (if 1 < (l.map (fun a => a.account_status.getD "")).dedup.length
              then 1 else 0)) ∧
    (∀ (accounts : List Account) (d : Discrepancy),
       d ∈ check_cross_bureau_discrepancies accounts
       → d.dtype = "cross_bureau_discrepancy") := by
  refine ⟨?_, ?_, ?_, ?_⟩
  · intro num st hnum
    have hgrp : groupByAcct [c3AccountA num st, c3AccountB num st]
        = [(num, [c3AccountA num st, c3AccountB num st])] := by
      simp [groupByAcct, addToGroups, c3AccountA, c3AccountB, hnum]
    have hst : ([st, st] : List String).dedup.length = 1 := by
      rw [List.dedup_cons_of_mem (List.mem_singleton.mpr rfl),
        List.dedup_cons_of_not_mem (List.not_mem_nil st), List.dedup_nil]
      rfl
    refine ⟨?_, by decide, by decide⟩
    unfold check_cross_bureau_discrepancies
    rw [hgrp]
    simp only [List.flatMap_cons, List.flatMap_nil, List.append_nil]
    unfold groupDiscrepancies
    rw [if_pos (by simp)]
    have hbals : ([c3AccountA num st, c3AccountB num st].map
        (fun a => a.current_balance.getD 0)) = [500, 750] := rfl
    have hsts : ([c3AccountA num st, c3AccountB num st].map
        (fun a => a.account_status.getD "")) = [st, st] := rfl
    rw [hbals, hsts, if_pos (by decide), if_neg (by omega)]
    rfl
  · intro accounts hagree
    unfold check_cross_bureau_discrepancies
    apply flatMap_eq_nil_of_forall
    intro g hg
    obtain ⟨hk, hmem⟩ := groupByAcct_inv accounts g hg
    apply groupDiscrepancies_eq_nil
    · intro x hx y hy
      obtain ⟨hxa, hxk⟩ := hmem x hx
      obtain ⟨hya, hyk⟩ := hmem y hy
      exact (hagree x hxa y hya (by rw [hxk, hyk]) (by rw [hxk]; exact hk)).1
    · intro x hx y hy
      obtain ⟨hxa, hxk⟩ := hmem x hx
      obtain ⟨hya, hyk⟩ := hmem y hy
      exact (hagree x hxa y hya (by rw [hxk, hyk]) (by rw [hxk]; exact hk)).2
  · intro k l hlen
    unfold groupDiscrepancies
    rw [if_pos hlen]
    split_ifs with hb hs <;> simp_all
  · intro accounts d hd
    unfold check_cross_bureau_discrepancies at hd
    obtain ⟨g, hg, hdg⟩ := List.mem_flatMap.mp hd
    unfold groupDiscrepancies at hdg
    split_ifs at hdg <;>
      simp only [List.mem_append, List.mem_singleton, List.not_mem_nil, or_false,
        false_or, List.append_nil, List.nil_append] at hdg
    all_goals
      first
        | exact hdg.elim
        | (rcases hdg with rfl | rfl <;> rfl)

/-- Witness for C3 at the spec's concrete account number. -/
theorem crossBureauDiscrepancy_spec_witness :
    check_cross_bureau_discrepancies
        [c3AccountA "4111111111111111" "open", c3AccountB "4111111111111111" "open"]
      = [{ dtype := "cross_bureau_discrepancy", account_number := "4111111111111111"
           description := "Balance varies across bureaus: [500, 750]"
           severity := "high", fcra_section := "623(a)(1)" }] :=
  (crossBureauDiscrepancy_spec.1 "4111111111111111" "open" (by decide)).1

theorem pyStartsWith_ocr_error (needle : String) (e : String)
    (hn : needle = "OCR Error" ∨ needle = "OCR Error:") :
    pyStartsWith ("OCR Error: " ++ e) needle = true := by
  unfold pyStartsWith
  have hd : ("OCR Error: " ++ e).toList = "OCR Error: ".toList ++ e.toList := by
    simp [String.toList]
  rw [hd]
  have h2 : ("OCR Error: " : String).toList
      = ['O', 'C', 'R', ' ', 'E', 'r', 'r', 'o', 'r', ':', ' '] := rfl
  rcases hn with hn | hn <;> subst hn
  · have h1 : ("OCR Error" : String).toList
        = ['O', 'C', 'R', ' ', 'E', 'r', 'r', 'o', 'r'] := rfl
    rw [h1, h2]
    simp [listStarts]
  · have h1 : ("OCR Error:" : String).toList
        = ['O', 'C', 'R', ' ', 'E', 'r', 'r', 'o', 'r', ':'] := rfl
    rw [h1, h2]
    simp [listStarts]

/-- C8: the OCR entry points are total functions to strings whose value on
any internal library failure is the descriptive `"OCR Error: ..."` string
(never a raised exception); a document for which both direct parsing and OCR
fail yields `success = false` with a non-empty error list, while an OCR run
that succeeded with empty content yields `success = true` — the two outcomes
are distinguishable. -/
theorem ocr_failure_handling :
    (∀ e : String,
       process_pdf (Except.error e) = "OCR Error: " ++ e ∧
       pyStartsWith (process_pdf (Except.error e)) "OCR Error:" = true) ∧
    (∀ e : String,
       process_image (Except.error e) = "OCR Error: " ++ e ∧
       pyStartsWith (process_image (Except.error e)) "OCR Error:" = true) ∧
    (∀ (pdf : PdfParse) (e : String),
       (has_meaningful_data pdf = false ∨ has_error_key pdf = true) →
       (process_credit_report pdf (Except.error e)).success = false ∧
       (process_credit_report pdf (Except.error e)).errors
         = ["Both PDF parsing and OCR failed"]) ∧
    ((process_credit_report (PdfParse.err "unreadable") (Except.ok [])).success = true ∧
     (process_credit_report (PdfParse.err "unreadable") (Except.ok [])).data
       = ProcData.fromOcr "" ∧
     (process_credit_report (PdfParse.err "unreadable") (Except.ok [])).errors = []) := by
  refine ⟨?_, ?_, ?_, ?_⟩
  · intro e
    exact ⟨rfl, pyStartsWith_ocr_error "OCR Error:" e (Or.inr rfl)⟩
  · intro e
    exact ⟨rfl, pyStartsWith_ocr_error "OCR Error:" e (Or.inr rfl)⟩
  · intro pdf e h
    have hcond : (has_meaningful_data pdf && !has_error_key pdf) = false := by
      rcases h with h | h <;> simp [h]
    have hstart : pyStartsWith (process_pdf (Except.error e)) "OCR Error" = true :=
      pyStartsWith_ocr_error "OCR Error" e (Or.inl rfl)
    have hres : process_credit_report pdf (Except.error e)
        = { success := false, data := ProcData.emptyDict
            errors := ["Both PDF parsing and OCR failed"], method_used := none } := by
      unfold process_credit_report
      rw [hcond]
      simp [hstart]
    rw [hres]
    exact ⟨rfl, rfl⟩
  · have hpp : post_process_text "" = "" := by
      simp [post_process_text, OCR_CORRECTIONS, replaceAll, splitOnChar,
        pyStripChars, intercalateChar]
    have hpdf : process_pdf (Except.ok []) = "" := by
      unfold process_pdf
      simpa using hpp
    have hres : process_credit_report (PdfParse.err "unreadable") (Except.ok [])
        = { success := true, data := ProcData.fromOcr ""
            errors := [], method_used := some "ocr" } := by
      unfold process_credit_report
      simp [has_meaningful_data, has_error_key, hpdf, pyStartsWith, listStarts]
    rw [hres]
    exact ⟨rfl, rfl, rfl⟩

/-- Witness for C8's failure branch at concrete inputs. -/
theorem ocr_failure_handling_witness :
    (process_credit_report (PdfParse.err "bad pdf") (Except.error "raster crash")).success
      = false :=
  (ocr_failure_handling.2.2.1 (PdfParse.err "bad pdf") "raster crash" (Or.inr rfl)).1

end CreditRepair
